import Mathlib

/-!
Shallow embedding of the discriminated-union event lessons of
`src/unnamed/part_006` (Lessons 23-27 of the book's event example):
the `TechEventNew` / `TechEventNewer` tagged unions, the dispatchers
`getEventTeaser` and `getEventTeaser3`, the guard `neverError`, the
dynamic-union helpers `filterByEvent` / `filterByEvent2`, the derived
discriminant enumeration `EventKind2` and the grouping `groupEvents`.
-/

namespace TS50

/-- Source `type Talk = { title: string; abstract: string; speaker: string; }`. -/
structure Talk where
  title : String
  abstract : String
  speaker : String
deriving DecidableEq, Repr

/-- A JavaScript `Date`, modelled by its epoch milliseconds. -/
structure JSDate where
  ms : Int
deriving DecidableEq, Repr

/-- Source `type TechEventBaseNew = { title; description; date; capacity; rsvp }`. -/
structure TechEventBaseNew where
  title : String
  description : String
  date : JSDate
  capacity : Int
  rsvp : Int
deriving DecidableEq, Repr

/-- Source `type TechEventNew = WebinarNew | ConferenceNew | MeetupNew`, where each
variant is `TechEventBaseNew & { ...; kind: <literal> }`.  The discriminant
literal is carried by the constructor; the extra fields are its arguments
(`WebinarNew`: `url: string`, `price?: number`, `talks: Talk`;
`ConferenceNew`: `location: string`, `price: number`, `talks: Talk[]`;
`MeetupNew`: `location: string`, `price: string`, `talks: Talk[]`). -/
inductive TechEventNew where
  | WebinarNew (base : TechEventBaseNew) (url : String) (price : Option Int)
      (talks : Talk)
  | ConferenceNew (base : TechEventBaseNew) (location : String) (price : Int)
      (talks : List Talk)
  | MeetupNew (base : TechEventBaseNew) (location : String) (price : String)
      (talks : List Talk)
deriving DecidableEq, Repr

/-- The `kind` discriminant field of a `TechEventNew` value. -/
def TechEventNew.kind : TechEventNew → String
  | .WebinarNew .. => "Webinar"
  | .ConferenceNew .. => "Conference"
  | .MeetupNew .. => "Meetup"

/-- Source `type TechEventNewer = ConferenceNew | WebinarNew | Hackathon | MeetupNew`;
`Hackathon` is `TechEventBaseNew & { location: string; price?: number;
kind: "Hackathon" }`. -/
inductive TechEventNewer where
  | ConferenceNew (base : TechEventBaseNew) (location : String) (price : Int)
      (talks : List Talk)
  | WebinarNew (base : TechEventBaseNew) (url : String) (price : Option Int)
      (talks : Talk)
  | Hackathon (base : TechEventBaseNew) (location : String) (price : Option Int)
  | MeetupNew (base : TechEventBaseNew) (location : String) (price : String)
      (talks : List Talk)
deriving DecidableEq, Repr

/-- The `kind` discriminant field of a `TechEventNewer` value. -/
def TechEventNewer.kind : TechEventNewer → String
  | .ConferenceNew .. => "Conference"
  | .WebinarNew .. => "Webinar"
  | .Hackathon .. => "Hackathon"
  | .MeetupNew .. => "Meetup"

/-- Which variant of the union a value belongs to (its constructor index,
in the order the union lists the variants). -/
def TechEventNewer.tag : TechEventNewer → Fin 4
  | .ConferenceNew .. => 0
  | .WebinarNew .. => 1
  | .Hackathon .. => 2
  | .MeetupNew .. => 3

/-- A JavaScript runtime value as it can sit in an event object's field:
absent (`undefined`), a string, or a number (the numbers appearing in these
lessons are integers). -/
inductive JSVal where
  | undef
  | str (s : String)
  | num (n : Int)
deriving DecidableEq, Repr

/-- How a template literal `${x}` stringifies a field value:
`undefined` prints as `"undefined"`, strings print verbatim, numbers print
in decimal. -/
def JSVal.interp : JSVal → String
  | .undef => "undefined"
  | .str s => s
  | .num n => toString n

/-- JavaScript truthiness of such a value (`undefined` is falsy, a string is
truthy iff nonempty, a number iff nonzero). -/
def JSVal.truthy : JSVal → Bool
  | .undef => false
  | .str s => s ≠ ""
  | .num n => n ≠ 0

/-- The runtime view of an arbitrary object reaching `getEventTeaser3`
through a `switch (event.kind)`: its `kind` string plus the fields the
function's branches read.  A field the object lacks holds `JSVal.undef`. -/
structure RawEvent where
  kind : String
  title : JSVal
  url : JSVal
  price : JSVal
  location : JSVal
deriving DecidableEq, Repr

/-- Source `function neverError(message: string, token: never)`:
builds `new Error(` with the template
`$\x7bmessage\x7d. $\x7btoken\x7d should not exist`); we model the `Error`
by its message string.  `token` is the stringification of the value that
reached the default branch. -/
def neverError (message : String) (token : String) : String :=
  message ++ ". " ++ token ++ " should not exist"

/-- What `${event}` prints for a plain event object in a template literal. -/
def objectToString : String := "[object Object]"

/-- Source `function getEventTeaser(event: TechEventNew)` (Lesson 24): switch on
`event.kind` with branches for `"Webinar"`, `"Conference"`, `"Meetup"`.
The source also carries a dead `case "u": return ` (under
`@ts-expect-error`) and a throwing `default`; both are unreachable for an
argument of the union type, whose `kind` is always one of the three matched
literals, so the Lean match needs only the three live branches. -/
def getEventTeaser : TechEventNew → String
  | .WebinarNew b url _ _ =>
      b.title ++ " Webinar. " ++ ("Available online at " ++ url)
  | .ConferenceNew b _ price _ =>
      b.title ++ " Conference. " ++ ("Priced at " ++ toString price ++ " USD")
  | .MeetupNew b location _ _ =>
      b.title ++ " Meetup. " ++ ("Hosted at " ++ location)

/-- Source `function getEventTeaser3(event: TechEventNewer)` on an argument of the
union type (Lesson 27): switch on `event.kind` with branches for
`"Webinar"`, `"Conference"`, `"Meetup"`, `"Hackathon"`; the dead `case "u"`
and the `default` that throws `neverError(...)` are unreachable here. -/
def getEventTeaser3 : TechEventNewer → String
  | .WebinarNew b url _ _ =>
      b.title ++ " Webinar. " ++ ("Available online at " ++ url)
  | .ConferenceNew b _ price _ =>
      b.title ++ " Conference. " ++ ("Priced at " ++ toString price ++ " USD")
  | .MeetupNew b location _ _ =>
      b.title ++ " Meetup. " ++ ("Hosted at " ++ location)
  | .Hackathon b location _ =>
      b.title ++ " Hackathon. " ++ ("Hosted at " ++ location)

/-- The same `getEventTeaser3` switch as JavaScript executes it on an
arbitrary runtime object, clause by clause in source order: the four variant
cases, then the dead `case "u": return ` kept in the emitted code (the
`@ts-expect-error` comment above it only silences the type checker), then
the `default` that throws `neverError("Whoops - bad move", event)`.
`Except.error` carries the thrown error's message. -/
def getEventTeaser3Run (event : RawEvent) : Except String String :=
  if event.kind = "Webinar" then
    .ok (event.title.interp ++ " Webinar. "
      ++ ("Available online at " ++ event.url.interp))
  else if event.kind = "Conference" then
    .ok (event.title.interp ++ " Conference. "
      ++ ("Priced at " ++ event.price.interp ++ " USD"))
  else if event.kind = "Meetup" then
    .ok (event.title.interp ++ " Meetup. "
      ++ ("Hosted at " ++ event.location.interp))
  else if event.kind = "Hackathon" then
    .ok (event.title.interp ++ " Hackathon. "
      ++ ("Hosted at " ++ event.location.interp))
  else if event.kind = "u" then
    .ok ""
  else
    .error (neverError "Whoops - bad move" objectToString)

/-- The runtime object a `TechEventNewer` value presents to
`getEventTeaser3Run`: its `kind` and the fields it carries (fields a
variant lacks are `undefined`; an omitted optional `price` likewise). -/
def TechEventNewer.toRaw : TechEventNewer → RawEvent
  | .ConferenceNew b location price _ =>
      ⟨"Conference", .str b.title, .undef, .num price, .str location⟩
  | .WebinarNew b url price _ =>
      ⟨"Webinar", .str b.title, .str url,
        (match price with | none => .undef | some n => .num n), .undef⟩
  | .Hackathon b location price =>
      ⟨"Hackathon", .str b.title, .undef,
        (match price with | none => .undef | some n => .num n), .str location⟩
  | .MeetupNew b location price _ =>
      ⟨"Meetup", .str b.title, .undef, .str price, .str location⟩

/-- JS `s.includes(sub)` on strings: some tail of `s` starts with `sub`. -/
def strIncludes (s sub : String) : Bool :=
  s.data.tails.any fun t => sub.data.isPrefixOf t

/-- Source `function filterByEvent(list: TechEventNew[], kind: EventKind)`
(Lesson 25).  The filter callback has a block body whose only statement is
the bare expression `event.kind === kind`; the block returns no value, so
the callback evaluates the comparison, discards it, and yields `undefined`,
whose truthiness decides whether `filter` keeps the element. -/
def filterByEvent (list : List TechEventNew) (kind : String) :
    List TechEventNew :=
  list.filter fun event =>
    let _compared := event.kind == kind
    JSVal.undef.truthy

/-- Source `function filterByEvent2(list: TechEventNew[], kind: EventKind2)`
(Lesson 25): same body as `filterByEvent`, only the `kind` parameter's
static type differs. -/
def filterByEvent2 (list : List TechEventNew) (kind : String) :
    List TechEventNew :=
  list.filter fun event =>
    let _compared := event.kind == kind
    JSVal.undef.truthy

/-- Source `type EventKind2 = TechEventNewer["kind"]`: the values the `kind` field
ranges over across all variants of the union. -/
def EventKind2 : Set String := Set.range TechEventNewer.kind

/-- Source `type GroupedEvents2 = { [kind in EventKind2]: TechEventNewer[] }`:
one bucket per discriminant key. -/
structure GroupedEvents2 where
  Conference : List TechEventNewer
  Hackathon : List TechEventNewer
  Meetup : List TechEventNewer
  Webinar : List TechEventNewer
deriving DecidableEq, Repr

/-- JS `grouped[k].push(event)`: appends `event` to the bucket stored under the
key `k` of the grouped object.  The object literal in `groupEvents` has
exactly the keys `Conference`, `Hackathon`, `Meetup`, `Webinar`; any other
key is never used, as `event.kind` always is one of the four. -/
def GroupedEvents2.pushAt (g : GroupedEvents2) (k : String)
    (event : TechEventNewer) : GroupedEvents2 :=
  if k = "Conference" then { g with Conference := g.Conference ++ [event] }
  else if k = "Hackathon" then { g with Hackathon := g.Hackathon ++ [event] }
  else if k = "Meetup" then { g with Meetup := g.Meetup ++ [event] }
  else if k = "Webinar" then { g with Webinar := g.Webinar ++ [event] }
  else g

/-- Source `function groupEvents(events: TechEventNewer[]): GroupedEvents2`
(Lesson 25): starts from the literal with four empty arrays, then
`events.forEach((event) => grouped[event.kind].push(event))`. -/
def groupEvents (events : List TechEventNewer) : GroupedEvents2 :=
  events.foldl (fun grouped event => grouped.pushAt event.kind event)
    ⟨[], [], [], []⟩

/-- A list is a `isPrefixOf`-prefix of itself followed by anything. -/
theorem isPrefixOf_append_self (m r : List Char) :
    m.isPrefixOf (m ++ r) = true := by
  induction m with
  | nil => simp [List.isPrefixOf]
  | cons a as ih => simp [List.isPrefixOf, ih]

/-- A string contains any middle piece of a three-way concatenation. -/
theorem strIncludes_append (a sub b : String) :
    strIncludes (a ++ sub ++ b) sub = true := by
  unfold strIncludes
  rw [List.any_eq_true]
  refine ⟨sub.data ++ b.data, ?_, ?_⟩
  · rw [List.mem_tails]
    have h : (a ++ sub ++ b).data = a.data ++ (sub.data ++ b.data) := by
      simp [String.data_append]
    rw [h]
    exact List.suffix_append _ _
  · exact isPrefixOf_append_self _ _

/-- A concrete `ConferenceNew` value with price `129` and location
`"Amsterdam"`, shaped like the source's `script19` example object. -/
def amsterdamConf : TechEventNew :=
  .ConferenceNew
    ⟨"JSConf", "The feel-good JS conference", ⟨1686787200000⟩, 300, 289⟩
    "Amsterdam" 129
    [⟨"How not to write C# code", "...", "Mitchell Mudd"⟩]

/-- C2, counterexample: on a Conference event with price `129` and location
`"Amsterdam"`, the teaser `getEventTeaser` returns does contain `"129"` but
does not contain `"Amsterdam"`: the Conference branch interpolates only the
title and the price, never the location. -/
theorem getEventTeaser_amsterdam_counterexample :
    amsterdamConf.kind = "Conference"
      ∧ strIncludes (getEventTeaser amsterdamConf) "129" = true
      ∧ strIncludes (getEventTeaser amsterdamConf) "Amsterdam" = false := by
  refine ⟨rfl, by decide, by decide⟩

/-- C2, amended: for every Conference event with price `129` (whatever its
location, title or talks), `getEventTeaser` returns a string containing
`"129"`; the location does not reach the output. -/
theorem getEventTeaser_conference_contains_price
    (b : TechEventBaseNew) (location : String) (talks : List Talk) :
    strIncludes (getEventTeaser (.ConferenceNew b location 129 talks))
      "129" = true := by
  have h : getEventTeaser (.ConferenceNew b location 129 talks)
      = (b.title ++ " Conference. " ++ "Priced at ") ++ "129" ++ " USD" := by
    have h129 : toString (129 : Int) = "129" := rfl
    simp [getEventTeaser, h129, String.append_assoc]
  rw [h]
  exact strIncludes_append _ _ _

/-- C3: for every Webinar event with url `"https://x"`, `getEventTeaser`
returns a string containing `"https://x"`. -/
theorem getEventTeaser_webinar_contains_url
    (b : TechEventBaseNew) (price : Option Int) (talks : Talk) :
    strIncludes (getEventTeaser (.WebinarNew b "https://x" price talks))
      "https://x" = true := by
  have h : getEventTeaser (.WebinarNew b "https://x" price talks)
      = (b.title ++ " Webinar. " ++ "Available online at ")
        ++ "https://x" ++ "" := by
    simp [getEventTeaser, String.append_assoc]
  rw [h]
  exact strIncludes_append _ _ _

/-- C1: the runtime switch of `getEventTeaser3` applied to any event of the
union executes exactly the branch labelled by that event's `kind` and builds
its result only from fields declared on that variant: the first conjunct
says the switch, run on the event's runtime object, selects the branch and
returns normally; the remaining conjuncts exhibit each branch's result as a
function of the title plus the url (Webinar), the price (Conference), or
the location (Meetup, Hackathon). -/
theorem getEventTeaser3_dispatch_exact :
    (∀ e : TechEventNewer,
        getEventTeaser3Run e.toRaw = Except.ok (getEventTeaser3 e))
      ∧ (∀ b url price talks,
          getEventTeaser3 (.WebinarNew b url price talks)
            = b.title ++ " Webinar. " ++ ("Available online at " ++ url))
      ∧ (∀ b location price talks,
          getEventTeaser3 (.ConferenceNew b location price talks)
            = b.title ++ " Conference. "
              ++ ("Priced at " ++ toString price ++ " USD"))
      ∧ (∀ b location price talks,
          getEventTeaser3 (.MeetupNew b location price talks)
            = b.title ++ " Meetup. " ++ ("Hosted at " ++ location))
      ∧ (∀ b location price,
          getEventTeaser3 (.Hackathon b location price)
            = b.title ++ " Hackathon. " ++ ("Hosted at " ++ location)) := by
  refine ⟨?_, fun b url price talks => rfl, fun b location price talks => rfl,
    fun b location price talks => rfl, fun b location price => rfl⟩
  intro e
  cases e <;>
    simp [TechEventNewer.toRaw, getEventTeaser3Run, getEventTeaser3,
      JSVal.interp]

/-- A throwaway base record, used to build sample events. -/
def sampleBase : TechEventBaseNew :=
  ⟨"", "", ⟨0⟩, 0, 0⟩

/-- C4: the derived discriminant enumeration `EventKind2 =
TechEventNewer["kind"]` is exactly the set of the four discriminant
literals, and the discriminant determines the variant: two events with
equal `kind` belong to the same member of the union. -/
theorem eventKind2_exact_and_unique :
    EventKind2
        = ({"Conference", "Webinar", "Hackathon", "Meetup"} : Set String)
      ∧ ∀ e₁ e₂ : TechEventNewer, e₁.kind = e₂.kind → e₁.tag = e₂.tag := by
  constructor
  · ext s
    simp only [EventKind2, Set.mem_range, Set.mem_insert_iff,
      Set.mem_singleton_iff]
    constructor
    · rintro ⟨e, rfl⟩
      cases e <;> simp [TechEventNewer.kind]
    · rintro (rfl | rfl | rfl | rfl)
      · exact ⟨.ConferenceNew sampleBase "" 0 [], rfl⟩
      · exact ⟨.WebinarNew sampleBase "" none ⟨"", "", ""⟩, rfl⟩
      · exact ⟨.Hackathon sampleBase "" none, rfl⟩
      · exact ⟨.MeetupNew sampleBase "" "" [], rfl⟩
  · intro e₁ e₂ h
    cases e₁ <;> cases e₂ <;>
      simp_all [TechEventNewer.kind, TechEventNewer.tag]

/-- C4, witness: the uniqueness clause applied to two concrete Conference
events with equal discriminants. -/
theorem eventKind2_exact_and_unique_witness :
    TechEventNewer.tag (.ConferenceNew sampleBase "Amsterdam" 129 [])
      = TechEventNewer.tag (.ConferenceNew sampleBase "Berlin" 99 []) :=
  eventKind2_exact_and_unique.2 _ _ rfl

/-- C5: grouping the empty event list yields a record with all four
discriminant keys present, each holding the empty array. -/
theorem groupEvents_nil :
    (groupEvents []).Conference = [] ∧ (groupEvents []).Hackathon = []
      ∧ (groupEvents []).Meetup = [] ∧ (groupEvents []).Webinar = [] :=
  ⟨rfl, rfl, rfl, rfl⟩

/-- A runtime object whose `kind` is the string `"u"`. -/
def uEvent : RawEvent :=
  ⟨"u", .undef, .undef, .undef, .undef⟩

/-- C6, counterexample: `"u"` lies outside the expected variant set, yet
`getEventTeaser3Run` on a `kind = "u"` object returns the empty string
normally instead of throwing: the dead `case "u": return ` arm survives
into the emitted JavaScript (`@ts-expect-error` silences only the type
checker) and catches the value before the throwing default. -/
theorem getEventTeaser3Run_u_counterexample :
    uEvent.kind ∉ (["Webinar", "Conference", "Meetup", "Hackathon"]
        : List String)
      ∧ getEventTeaser3Run uEvent = Except.ok "" :=
  ⟨by decide, rfl⟩

/-- C6, amended: for every runtime object whose `kind` is outside the
expected variant set and also distinct from the dead demo label `"u"`,
`getEventTeaser3` throws the `Error` built by `neverError` in its default
branch; the object with `kind = "u"` instead returns `""` silently. -/
theorem getEventTeaser3Run_throws_outside
    (e : RawEvent)
    (h : e.kind ∉ (["Webinar", "Conference", "Meetup", "Hackathon"]
      : List String))
    (hu : e.kind ≠ "u") :
    getEventTeaser3Run e
      = Except.error (neverError "Whoops - bad move" objectToString) := by
  simp only [List.mem_cons, List.not_mem_nil, or_false, not_or] at h
  obtain ⟨h1, h2, h3, h4⟩ := h
  simp [getEventTeaser3Run, h1, h2, h3, h4, hu]

/-- A runtime object whose `kind` is the string `"Concert"`. -/
def concertEvent : RawEvent :=
  ⟨"Concert", .undef, .undef, .undef, .undef⟩

/-- C6, witness: the amended statement at the concrete `kind = "Concert"`
object. -/
theorem getEventTeaser3Run_throws_outside_witness :
    (concertEvent.kind ∉ (["Webinar", "Conference", "Meetup", "Hackathon"]
        : List String)
      ∧ concertEvent.kind ≠ "u")
      ∧ getEventTeaser3Run concertEvent
          = Except.error (neverError "Whoops - bad move" objectToString) :=
  ⟨⟨by decide, by decide⟩,
    getEventTeaser3Run_throws_outside concertEvent (by decide) (by decide)⟩

/-- C7: on any runtime object whose `kind` is one of the four legal variant
kinds, `getEventTeaser3` returns normally (an `Except.ok` result): the
throwing default branch is unreachable. -/
theorem getEventTeaser3Run_ok_on_legal
    (e : RawEvent)
    (h : e.kind ∈ (["Webinar", "Conference", "Meetup", "Hackathon"]
      : List String)) :
    ∃ s, getEventTeaser3Run e = Except.ok s := by
  simp only [List.mem_cons, List.not_mem_nil, or_false] at h
  rcases h with h | h | h | h <;> simp [getEventTeaser3Run, h]

/-- A runtime object shaped like a Webinar event. -/
def webinarRaw : RawEvent :=
  ⟨"Webinar", .str "JSConf", .str "https://x", .undef, .undef⟩

/-- C7, witness: the statement at a concrete Webinar-kinded object. -/
theorem getEventTeaser3Run_ok_on_legal_witness :
    webinarRaw.kind ∈ (["Webinar", "Conference", "Meetup", "Hackathon"]
        : List String)
      ∧ ∃ s, getEventTeaser3Run webinarRaw = Except.ok s :=
  ⟨by decide, getEventTeaser3Run_ok_on_legal webinarRaw (by decide)⟩

/-- C9: both filter helpers return the empty array on every input: their
callback's block body evaluates `event.kind === kind` as a bare statement
and returns no value, so every element is tested against the falsy
`undefined` and dropped. -/
theorem filterByEvent_always_empty
    (list : List TechEventNew) (kind : String) :
    filterByEvent2 list kind = [] ∧ filterByEvent list kind = [] := by
  constructor <;> simp [filterByEvent2, filterByEvent, JSVal.truthy]

/-- Value of `kind` on a `ConferenceNew` value. -/
theorem kind_conferenceNew (b : TechEventBaseNew) (location : String)
    (price : Int) (talks : List Talk) :
    (TechEventNewer.ConferenceNew b location price talks).kind
      = "Conference" := rfl

/-- Value of `kind` on a `WebinarNew` value. -/
theorem kind_webinarNew (b : TechEventBaseNew) (url : String)
    (price : Option Int) (talks : Talk) :
    (TechEventNewer.WebinarNew b url price talks).kind = "Webinar" := rfl

/-- Value of `kind` on a `Hackathon` value. -/
theorem kind_hackathon (b : TechEventBaseNew) (location : String)
    (price : Option Int) :
    (TechEventNewer.Hackathon b location price).kind = "Hackathon" := rfl

/-- Value of `kind` on a `MeetupNew` value. -/
theorem kind_meetupNew (b : TechEventBaseNew) (location : String)
    (price : String) (talks : List Talk) :
    (TechEventNewer.MeetupNew b location price talks).kind = "Meetup" := rfl

/-- The `Conference` bucket of the `forEach` loop of `groupEvents`, run
from an arbitrary starting record. -/
theorem foldl_pushAt_conference (l : List TechEventNewer)
    (g : GroupedEvents2) :
    (List.foldl (fun gr e => gr.pushAt e.kind e) g l).Conference
      = g.Conference ++ l.filter (fun e => e.kind == "Conference") := by
  induction l generalizing g with
  | nil => simp
  | cons e es ih =>
      rw [List.foldl_cons, ih]
      cases e <;>
        simp [GroupedEvents2.pushAt, kind_conferenceNew, kind_webinarNew,
          kind_hackathon, kind_meetupNew, List.filter_cons]

/-- The `Hackathon` bucket of the `forEach` loop of `groupEvents`. -/
theorem foldl_pushAt_hackathon (l : List TechEventNewer)
    (g : GroupedEvents2) :
    (List.foldl (fun gr e => gr.pushAt e.kind e) g l).Hackathon
      = g.Hackathon ++ l.filter (fun e => e.kind == "Hackathon") := by
  induction l generalizing g with
  | nil => simp
  | cons e es ih =>
      rw [List.foldl_cons, ih]
      cases e <;>
        simp [GroupedEvents2.pushAt, kind_conferenceNew, kind_webinarNew,
          kind_hackathon, kind_meetupNew, List.filter_cons]

/-- The `Meetup` bucket of the `forEach` loop of `groupEvents`. -/
theorem foldl_pushAt_meetup (l : List TechEventNewer)
    (g : GroupedEvents2) :
    (List.foldl (fun gr e => gr.pushAt e.kind e) g l).Meetup
      = g.Meetup ++ l.filter (fun e => e.kind == "Meetup") := by
  induction l generalizing g with
  | nil => simp
  | cons e es ih =>
      rw [List.foldl_cons, ih]
      cases e <;>
        simp [GroupedEvents2.pushAt, kind_conferenceNew, kind_webinarNew,
          kind_hackathon, kind_meetupNew, List.filter_cons]

/-- The `Webinar` bucket of the `forEach` loop of `groupEvents`. -/
theorem foldl_pushAt_webinar (l : List TechEventNewer)
    (g : GroupedEvents2) :
    (List.foldl (fun gr e => gr.pushAt e.kind e) g l).Webinar
      = g.Webinar ++ l.filter (fun e => e.kind == "Webinar") := by
  induction l generalizing g with
  | nil => simp
  | cons e es ih =>
      rw [List.foldl_cons, ih]
      cases e <;>
        simp [GroupedEvents2.pushAt, kind_conferenceNew, kind_webinarNew,
          kind_hackathon, kind_meetupNew, List.filter_cons]

/-- The four kind filters partition the length of any event list. -/
theorem filter_kinds_length (l : List TechEventNewer) :
    (l.filter (fun e => e.kind == "Conference")).length
      + (l.filter (fun e => e.kind == "Hackathon")).length
      + (l.filter (fun e => e.kind == "Meetup")).length
      + (l.filter (fun e => e.kind == "Webinar")).length = l.length := by
  induction l with
  | nil => rfl
  | cons e es ih =>
      cases e <;>
        simp [List.filter_cons, kind_conferenceNew, kind_webinarNew,
          kind_hackathon, kind_meetupNew] <;>
        omega

/-- C10: `groupEvents` sends every event to exactly the bucket named by its
own `kind`: each bucket holds, in input order, exactly the input events of
that kind, and the bucket sizes sum to the input length. -/
theorem groupEvents_buckets (l : List TechEventNewer) :
    (groupEvents l).Conference
        = l.filter (fun e => e.kind == "Conference")
      ∧ (groupEvents l).Hackathon = l.filter (fun e => e.kind == "Hackathon")
      ∧ (groupEvents l).Meetup = l.filter (fun e => e.kind == "Meetup")
      ∧ (groupEvents l).Webinar = l.filter (fun e => e.kind == "Webinar")
      ∧ (groupEvents l).Conference.length + (groupEvents l).Hackathon.length
          + (groupEvents l).Meetup.length + (groupEvents l).Webinar.length
          = l.length := by
  have e1 : (groupEvents l).Conference
      = l.filter (fun e => e.kind == "Conference") := by
    simpa [groupEvents] using foldl_pushAt_conference l ⟨[], [], [], []⟩
  have e2 : (groupEvents l).Hackathon
      = l.filter (fun e => e.kind == "Hackathon") := by
    simpa [groupEvents] using foldl_pushAt_hackathon l ⟨[], [], [], []⟩
  have e3 : (groupEvents l).Meetup
      = l.filter (fun e => e.kind == "Meetup") := by
    simpa [groupEvents] using foldl_pushAt_meetup l ⟨[], [], [], []⟩
  have e4 : (groupEvents l).Webinar
      = l.filter (fun e => e.kind == "Webinar") := by
    simpa [groupEvents] using foldl_pushAt_webinar l ⟨[], [], [], []⟩
  refine ⟨e1, e2, e3, e4, ?_⟩
  rw [e1, e2, e3, e4]
  exact filter_kinds_length l

end TS50
